import Mathlib

/-!
Verification of the custom JSON codec layer of `gufe` (`gufe/custom_codecs.py`).

The Python module defines five codecs (paths, bytes, numpy arrays, settings
models, openff units/quantities), each a pair `to_dict`/`from_dict` together
with dict-match predicates used to route a decoded dict to its codec.  This
file embeds those functions shallowly: Python values are an inductive `PyVal`,
Python dicts are association lists keyed by strings (lookup takes the first
occurrence, as Python dicts hold each key once), and fallible Python code
returns `Except PyErr`.

Parts of the repository that the codecs call but whose code is not part of the
fragment under study (`gufe.custom_json.JSONCodec` and
`gufe.tokenization.get_class`) are modelled from the specification; each such
definition says so in its doc comment.
-/

/-- Python exception kinds that the embedded code can raise.  The constructor
`malformedCanonicalDict` exists only to state the specification's error
taxonomy (§7 of the spec); no function of the source ever produces it. -/
inductive PyErr where
  | keyError : String → PyErr
  | valueError : String → PyErr
  | typeError : String → PyErr
  | unicodeEncodeError : PyErr
  | importError : PyErr
  | malformedCanonicalDict : PyErr
  deriving DecidableEq, Repr

/-- The JSON-representable Python values the codecs traffic in: strings,
ints, booleans, byte strings, lists of ints (array shapes), and openff
`Unit` objects (identified by their unit-expression string, e.g.
"meter / second ** 2"). -/
inductive PyVal where
  | pstr : String → PyVal
  | pint : Int → PyVal
  | pbool : Bool → PyVal
  | pbytes : List (Fin 256) → PyVal
  | pintList : List Int → PyVal
  | punit : String → PyVal
  deriving DecidableEq, Repr

/-- A Python dict with string keys: an association list, first binding of a
key wins on lookup (Python dicts hold each key at most once). -/
abbrev Dict : Type := List (String × PyVal)

/-- `lookup? d k`: the value bound to `k` in `d`, first occurrence. -/
def lookup? : Dict → String → Option PyVal
  | [], _ => none
  | (k', v) :: rest, k => if k' = k then some v else lookup? rest k

/-- `k in d` in Python. -/
def hasKey (d : Dict) (k : String) : Bool :=
  (lookup? d k).isSome

/-- Remove every binding of `k` (on a duplicate-free dict: the one binding). -/
def eraseKey : Dict → String → Dict
  | [], _ => []
  | (k', v) :: rest, k => if k' = k then eraseKey rest k else (k', v) :: eraseKey rest k

/-- `d[k]` in Python: the value, or `KeyError`. -/
def getItem (d : Dict) (k : String) : Except PyErr PyVal :=
  match lookup? d k with
  | some v => .ok v
  | none => .error (.keyError k)

/-- `d.pop(k)` in Python: the value plus the dict without `k`, or `KeyError`. -/
def popKey (d : Dict) (k : String) : Except PyErr (PyVal × Dict) :=
  match lookup? d k with
  | some v => .ok (v, eraseKey d k)
  | none => .error (.keyError k)

/-- `del d[k]` in Python: the dict without `k`, or `KeyError`. -/
def delKey (d : Dict) (k : String) : Except PyErr Dict :=
  match lookup? d k with
  | some _ => .ok (eraseKey d k)
  | none => .error (.keyError k)

theorem lookup?_eraseKey_self (d : Dict) (k : String) :
    lookup? (eraseKey d k) k = none := by
  induction d with
  | nil => rfl
  | cons p rest ih =>
    obtain ⟨k', v⟩ := p
    by_cases h : k' = k
    · simp [eraseKey, h, ih]
    · simp [eraseKey, lookup?, h, ih]

theorem lookup?_eraseKey_ne (d : Dict) (k k' : String) (h : k' ≠ k) :
    lookup? (eraseKey d k) k' = lookup? d k' := by
  induction d with
  | nil => rfl
  | cons p rest ih =>
    obtain ⟨k₀, v⟩ := p
    show lookup? (if k₀ = k then eraseKey rest k else (k₀, v) :: eraseKey rest k) k' =
      (if k₀ = k' then some v else lookup? rest k')
    by_cases h0 : k₀ = k
    · rw [if_pos h0, ih, if_neg]
      rw [h0]
      exact fun hh => h hh.symm
    · rw [if_neg h0]
      show (if k₀ = k' then some v else lookup? (eraseKey rest k) k') = _
      by_cases h1 : k₀ = k'
      · rw [if_pos h1, if_pos h1]
      · rw [if_neg h1, if_neg h1, ih]

theorem lookup?_append (d₁ d₂ : Dict) (k : String) :
    lookup? (d₁ ++ d₂) k = ((lookup? d₁ k).or (lookup? d₂ k)) := by
  induction d₁ with
  | nil => rfl
  | cons p rest ih =>
    obtain ⟨k', v⟩ := p
    show (if k' = k then some v else lookup? (rest ++ d₂) k) =
      ((if k' = k then some v else lookup? rest k).or (lookup? d₂ k))
    by_cases h : k' = k
    · rw [if_pos h, if_pos h]
      rfl
    · rw [if_neg h, if_neg h, ih]

theorem hasKey_append (d₁ d₂ : Dict) (k : String) :
    hasKey (d₁ ++ d₂) k = (hasKey d₁ k || hasKey d₂ k) := by
  unfold hasKey
  rw [lookup?_append]
  cases lookup? d₁ k <;> cases lookup? d₂ k <;> rfl

/-! ## The bytes codec (`BYTES_CODEC`)

`BYTES_CODEC = JSONCodec(cls=bytes, to_dict=lambda obj: {'latin-1':
obj.decode('latin-1')}, from_dict=lambda dct: dct['latin-1'].encode('latin-1'))`.
A Python `bytes` object is a list of byte values (`Fin 256`); `latin-1`
maps byte `b` to the character with code point `b` and back. -/

/-- `obj.decode('latin-1')`: each byte becomes the character with that code
point (all of 0–255 are valid scalar values). -/
def bytes_decode_latin1 (obj : List (Fin 256)) : String :=
  ⟨obj.map (fun b => Char.ofNat b.val)⟩

/-- `s.encode('latin-1')` over the character list of `s`: a character with
code point above 255 raises `UnicodeEncodeError`. -/
def chars_encode_latin1 : List Char → Except PyErr (List (Fin 256))
  | [] => .ok []
  | c :: rest =>
    if h : c.toNat < 256 then
      match chars_encode_latin1 rest with
      | .ok bs => .ok (⟨c.toNat, h⟩ :: bs)
      | .error e => .error e
    else .error .unicodeEncodeError

/-- `BYTES_CODEC.to_dict`. -/
def BYTES_CODEC_to_dict (obj : List (Fin 256)) : Dict :=
  [("latin-1", .pstr (bytes_decode_latin1 obj))]

/-- `BYTES_CODEC.from_dict`: `dct['latin-1'].encode('latin-1')`. -/
def BYTES_CODEC_from_dict (dct : Dict) : Except PyErr (List (Fin 256)) :=
  match getItem dct "latin-1" with
  | .ok (.pstr s) => chars_encode_latin1 s.data
  | .ok _ => .error (.typeError "encode")
  | .error e => .error e

theorem char_toNat_ofNat_of_lt (n : Nat) (h : n < 256) :
    (Char.ofNat n).toNat = n := by
  have hv : n.isValidChar := Or.inl (by omega)
  rw [Char.ofNat, dif_pos hv]
  rfl

theorem chars_encode_decode_latin1 (b : List (Fin 256)) :
    chars_encode_latin1 (b.map (fun x => Char.ofNat x.val)) = .ok b := by
  induction b with
  | nil => rfl
  | cons x rest ih =>
    have hx : (Char.ofNat x.val).toNat = x.val := char_toNat_ofNat_of_lt x.val x.isLt
    have hlt : (Char.ofNat x.val).toNat < 256 := by rw [hx]; exact x.isLt
    simp only [List.map_cons, chars_encode_latin1, dif_pos hlt, ih]
    congr 1
    apply List.cons_eq_cons.mpr
    refine ⟨Fin.ext ?_, rfl⟩
    simpa using hx

/-- C1: encoding any byte sequence with `BYTES_CODEC.to_dict` and decoding it
with `BYTES_CODEC.from_dict` returns the identical byte sequence. -/
theorem bytes_codec_roundtrip (b : List (Fin 256)) :
    BYTES_CODEC_from_dict (BYTES_CODEC_to_dict b) = .ok b := by
  show BYTES_CODEC_from_dict [("latin-1", .pstr (bytes_decode_latin1 b))] = .ok b
  unfold BYTES_CODEC_from_dict getItem lookup?
  simp only [if_pos rfl]
  show chars_encode_latin1 (bytes_decode_latin1 b).data = .ok b
  unfold bytes_decode_latin1
  exact chars_encode_decode_latin1 b

/-- C1 witness: the byte sequence `b'\x00\xFF\x41'` round-trips to the
identical 3-byte sequence. -/
theorem bytes_codec_roundtrip_witness :
    BYTES_CODEC_from_dict (BYTES_CODEC_to_dict [(0 : Fin 256), 255, 65]) =
      .ok [(0 : Fin 256), 255, 65] :=
  bytes_codec_roundtrip [(0 : Fin 256), 255, 65]

/-! ## The numpy array codec (`NUMPY_CODEC`)

`NUMPY_CODEC = JSONCodec(cls=np.ndarray, to_dict=lambda obj: {'dtype':
str(obj.dtype), 'shape': list(obj.shape), 'bytes': obj.tobytes()},
from_dict=lambda dct: np.frombuffer(dct['bytes'],
dtype=np.dtype(dct['dtype'])).reshape(dct['shape']))`.

An ndarray is modelled by its dtype, its shape and its element bit patterns
listed flat in row-major order (the order `obj.tobytes()` serializes,
whatever the array's memory layout).  A native numpy dtype prints without a
byte-order mark (`str(np.dtype('int64')) == "int64"`), `obj.tobytes()` emits
each element in the producing platform's native byte order, and
`np.frombuffer` reinterprets under the consuming platform's native order; the
`ByteOrder` parameter below models that platform byte order. -/

/-- A platform byte order. -/
inductive ByteOrder where
  | little
  | big
  deriving DecidableEq, Repr

/-- The numpy dtypes modelled (the canonical names `str(dtype)` prints). -/
inductive NpDType where
  | int64
  | int32
  | uint8
  | float64
  deriving DecidableEq, Repr

/-- `dtype.itemsize`: bytes per element. -/
def NpDType.itemsize : NpDType → Nat
  | .int64 => 8
  | .int32 => 4
  | .uint8 => 1
  | .float64 => 8

/-- `str(obj.dtype)` for a native dtype: the plain type name, no byte-order
mark. -/
def NpDType.name : NpDType → String
  | .int64 => "int64"
  | .int32 => "int32"
  | .uint8 => "uint8"
  | .float64 => "float64"

/-- `np.dtype(s)` restricted to the canonical names `NpDType.name` emits
(the only dtype strings this codec ever writes); other strings are not
understood. -/
def NpDType.parse : String → Option NpDType
  | "int64" => some .int64
  | "int32" => some .int32
  | "uint8" => some .uint8
  | "float64" => some .float64
  | _ => none

/-- The low `n` bytes of `x`, least significant first. -/
def leBytes : Nat → Nat → List (Fin 256)
  | 0, _ => []
  | n + 1, x => ⟨x % 256, Nat.mod_lt x (by decide)⟩ :: leBytes n (x / 256)

/-- The value of a little-endian byte string. -/
def leVal : List (Fin 256) → Nat
  | [] => 0
  | b :: rest => b.val + 256 * leVal rest

/-- One element's bit pattern serialized under a platform byte order. -/
def elemToBytes (o : ByteOrder) (s : Nat) (x : Nat) : List (Fin 256) :=
  match o with
  | .little => leBytes s x
  | .big => (leBytes s x).reverse

/-- One element's bit pattern read back under a platform byte order. -/
def bytesToElem (o : ByteOrder) (bs : List (Fin 256)) : Nat :=
  match o with
  | .little => leVal bs
  | .big => leVal bs.reverse

/-- `obj.tobytes()` of the row-major element list: element encodings
concatenated. -/
def elemsToBytes (o : ByteOrder) (s : Nat) : List Nat → List (Fin 256)
  | [] => []
  | x :: rest => elemToBytes o s x ++ elemsToBytes o s rest

/-- `np.frombuffer`'s reinterpretation of a buffer as `n` elements of `s`
bytes each. -/
def splitElems (o : ByteOrder) (s : Nat) : Nat → List (Fin 256) → List Nat
  | 0, _ => []
  | n + 1, bs => bytesToElem o (bs.take s) :: splitElems o s n (bs.drop s)

/-- An N-dimensional numpy array: dtype, shape, and the element bit patterns
flat in row-major order. -/
structure NDArray where
  dtype : NpDType
  shape : List Nat
  data : List Nat
  deriving DecidableEq, Repr

/-- A well-formed ndarray: as many elements as the shape says, each pattern
within the dtype's width. -/
def NDArray.WF (a : NDArray) : Prop :=
  a.data.length = a.shape.prod ∧ ∀ x ∈ a.data, x < 256 ^ a.dtype.itemsize

/-- `NUMPY_CODEC.to_dict`; `o` is the producing platform's native byte
order. -/
def NUMPY_CODEC_to_dict (o : ByteOrder) (obj : NDArray) : Dict :=
  [("dtype", .pstr obj.dtype.name),
   ("shape", .pintList (obj.shape.map Int.ofNat)),
   ("bytes", .pbytes (elemsToBytes o obj.dtype.itemsize obj.data))]

/-- `np.dtype(dct['dtype'])`: parse the dtype string or fail like numpy's
"data type not understood" `TypeError`. -/
def np_parse_dtype (v : PyVal) : Except PyErr NpDType :=
  match v with
  | .pstr s =>
    match NpDType.parse s with
    | some dt => .ok dt
    | none => .error (.typeError "data type not understood")
  | _ => .error (.typeError "data type not understood")

/-- `obj.reshape(shape)`'s reading of the shape argument: a list of
non-negative ints (numpy's inferred `-1` dimension is outside the modelled
fragment and maps to the negative-dimension error). -/
def intsToShape : List Int → Except PyErr (List Nat)
  | [] => .ok []
  | k :: rest =>
    if k < 0 then .error (.valueError "negative dimensions are not allowed")
    else
      match intsToShape rest with
      | .ok s => .ok (k.toNat :: s)
      | .error e => .error e

/-- Read `dct['shape']` as a shape. -/
def np_asShape (v : PyVal) : Except PyErr (List Nat) :=
  match v with
  | .pintList l => intsToShape l
  | _ => .error (.typeError "shape")

/-- `NUMPY_CODEC.from_dict`, i.e. `np.frombuffer(dct['bytes'],
dtype=np.dtype(dct['dtype'])).reshape(dct['shape'])`, with Python's
left-to-right evaluation: the `'bytes'` lookup first, then the `'dtype'`
lookup and parse, then the buffer reinterpretation (which requires the
buffer length to divide into whole elements), then the `'shape'` lookup and
the reshape (which requires the element count to match the shape's
product).  `o` is the consuming platform's native byte order. -/
def NUMPY_CODEC_from_dict (o : ByteOrder) (dct : Dict) : Except PyErr NDArray :=
  match getItem dct "bytes" with
  | .error e => .error e
  | .ok bv =>
    match getItem dct "dtype" with
    | .error e => .error e
    | .ok dv =>
      match np_parse_dtype dv with
      | .error e => .error e
      | .ok dt =>
        match bv with
        | .pbytes bs =>
          if bs.length % dt.itemsize = 0 then
            let elems := splitElems o dt.itemsize (bs.length / dt.itemsize) bs
            match getItem dct "shape" with
            | .error e => .error e
            | .ok sv =>
              match np_asShape sv with
              | .error e => .error e
              | .ok shape =>
                if elems.length = shape.prod then .ok ⟨dt, shape, elems⟩
                else .error (.valueError "cannot reshape array")
          else .error (.valueError "buffer size must be a multiple of element size")
        | _ => .error (.typeError "a bytes-like object is required")

theorem leBytes_length (n x : Nat) : (leBytes n x).length = n := by
  induction n generalizing x with
  | zero => rfl
  | succ n ih => simp [leBytes, ih]

theorem leVal_leBytes (n x : Nat) (h : x < 256 ^ n) : leVal (leBytes n x) = x := by
  induction n generalizing x with
  | zero =>
    have : x = 0 := by simpa using Nat.lt_one_iff.mp (by simpa using h)
    simp [this, leBytes, leVal]
  | succ n ih =>
    show (x % 256) + 256 * leVal (leBytes n (x / 256)) = x
    have hdiv : x / 256 < 256 ^ n := by
      rw [Nat.div_lt_iff_lt_mul (by decide)]
      rw [pow_succ] at h
      exact h
    rw [ih (x / 256) hdiv]
    omega

theorem elemToBytes_length (o : ByteOrder) (s x : Nat) :
    (elemToBytes o s x).length = s := by
  cases o <;> simp [elemToBytes, leBytes_length]

theorem bytesToElem_elemToBytes (o : ByteOrder) (s x : Nat) (h : x < 256 ^ s) :
    bytesToElem o (elemToBytes o s x) = x := by
  cases o with
  | little => exact leVal_leBytes s x h
  | big =>
    show leVal (leBytes s x).reverse.reverse = x
    rw [List.reverse_reverse]
    exact leVal_leBytes s x h

theorem elemsToBytes_length (o : ByteOrder) (s : Nat) (l : List Nat) :
    (elemsToBytes o s l).length = l.length * s := by
  induction l with
  | nil => simp [elemsToBytes]
  | cons x rest ih =>
    show (elemToBytes o s x ++ elemsToBytes o s rest).length = (rest.length + 1) * s
    rw [List.length_append, elemToBytes_length, ih]
    ring

theorem splitElems_elemsToBytes (o : ByteOrder) (s : Nat) (l : List Nat)
    (hl : ∀ x ∈ l, x < 256 ^ s) :
    splitElems o s l.length (elemsToBytes o s l) = l := by
  induction l with
  | nil => rfl
  | cons x rest ih =>
    show bytesToElem o ((elemToBytes o s x ++ elemsToBytes o s rest).take s) ::
        splitElems o s rest.length ((elemToBytes o s x ++ elemsToBytes o s rest).drop s) =
      x :: rest
    rw [List.take_left' (elemToBytes_length o s x),
        List.drop_left' (elemToBytes_length o s x)]
    rw [bytesToElem_elemToBytes o s x (hl x (List.mem_cons_self x rest))]
    rw [ih (fun y hy => hl y (List.mem_cons_of_mem x hy))]

theorem npdtype_parse_name (dt : NpDType) : NpDType.parse dt.name = some dt := by
  cases dt <;> rfl

theorem npdtype_itemsize_pos (dt : NpDType) : 0 < dt.itemsize := by
  cases dt <;> decide

theorem intsToShape_ofNat (s : List Nat) :
    intsToShape (s.map Int.ofNat) = .ok s := by
  induction s with
  | nil => rfl
  | cons k rest ih =>
    show intsToShape (Int.ofNat k :: rest.map Int.ofNat) = .ok (k :: rest)
    unfold intsToShape
    have h0 : ¬ (Int.ofNat k < 0) := by
      rw [Int.not_lt]
      exact Int.ofNat_nonneg k
    rw [if_neg h0, ih]
    rfl

/-- Shared round-trip core: decoding an encoded well-formed array on a
platform of the same native byte order reproduces the array exactly. -/
theorem numpy_from_to (o : ByteOrder) (a : NDArray) (h : a.WF) :
    NUMPY_CODEC_from_dict o (NUMPY_CODEC_to_dict o a) = .ok a := by
  obtain ⟨hlen, hbound⟩ := h
  obtain ⟨dt, shape, data⟩ := a
  simp only [NDArray.WF] at hlen hbound
  have hb : getItem (NUMPY_CODEC_to_dict o ⟨dt, shape, data⟩) "bytes" =
      .ok (.pbytes (elemsToBytes o dt.itemsize data)) := by
    simp [NUMPY_CODEC_to_dict, getItem, lookup?]
  have hd : getItem (NUMPY_CODEC_to_dict o ⟨dt, shape, data⟩) "dtype" =
      .ok (.pstr dt.name) := by
    simp [NUMPY_CODEC_to_dict, getItem, lookup?]
  have hs : getItem (NUMPY_CODEC_to_dict o ⟨dt, shape, data⟩) "shape" =
      .ok (.pintList (shape.map Int.ofNat)) := by
    simp [NUMPY_CODEC_to_dict, getItem, lookup?]
  have hp : np_parse_dtype (.pstr dt.name) = .ok dt := by
    simp [np_parse_dtype, npdtype_parse_name]
  simp only [NUMPY_CODEC_from_dict, hb, hd, hp, elemsToBytes_length]
  rw [if_pos (Nat.mul_mod_left data.length dt.itemsize)]
  rw [Nat.mul_div_cancel data.length (npdtype_itemsize_pos dt)]
  simp only [hs, np_asShape, intsToShape_ofNat]
  rw [splitElems_elemsToBytes o dt.itemsize data hbound]
  rw [if_pos hlen]

/-- C2: `NUMPY_CODEC.to_dict` emits exactly the keys `dtype`, `shape`,
`bytes`, with `shape` the list of the array's dimensions and `dtype` the
string name of the element type, and `NUMPY_CODEC.from_dict` on that dict
reconstructs an array of the same dtype, shape and element values. -/
theorem numpy_codec_roundtrip (a : NDArray) (h : a.WF) :
    (NUMPY_CODEC_to_dict .little a).map Prod.fst = ["dtype", "shape", "bytes"] ∧
    lookup? (NUMPY_CODEC_to_dict .little a) "dtype" = some (.pstr a.dtype.name) ∧
    lookup? (NUMPY_CODEC_to_dict .little a) "shape" =
      some (.pintList (a.shape.map Int.ofNat)) ∧
    NUMPY_CODEC_from_dict .little (NUMPY_CODEC_to_dict .little a) = .ok a := by
  refine ⟨rfl, ?_, ?_, numpy_from_to .little a h⟩
  · simp [NUMPY_CODEC_to_dict, lookup?]
  · simp [NUMPY_CODEC_to_dict, lookup?]

/-- C2 witness: the 2×3 int64 array `[[1,2,3],[4,5,6]]` encodes with
`shape=[2,3]`, `dtype="int64"` and decodes back to itself. -/
theorem numpy_codec_roundtrip_witness :
    (NUMPY_CODEC_to_dict .little ⟨.int64, [2, 3], [1, 2, 3, 4, 5, 6]⟩).map Prod.fst =
      ["dtype", "shape", "bytes"] ∧
    lookup? (NUMPY_CODEC_to_dict .little ⟨.int64, [2, 3], [1, 2, 3, 4, 5, 6]⟩) "dtype" =
      some (.pstr "int64") ∧
    lookup? (NUMPY_CODEC_to_dict .little ⟨.int64, [2, 3], [1, 2, 3, 4, 5, 6]⟩) "shape" =
      some (.pintList [2, 3]) ∧
    NUMPY_CODEC_from_dict .little
        (NUMPY_CODEC_to_dict .little ⟨.int64, [2, 3], [1, 2, 3, 4, 5, 6]⟩) =
      .ok ⟨.int64, [2, 3], [1, 2, 3, 4, 5, 6]⟩ :=
  numpy_codec_roundtrip ⟨.int64, [2, 3], [1, 2, 3, 4, 5, 6]⟩
    ⟨rfl, by decide⟩

/-- C3 counterexample: the same one-element int64 array `[1]` yields a
different `bytes` payload on a little-endian producer than on a big-endian
producer (`str(dtype)` carries no byte-order mark and `tobytes()` emits the
platform's native order), and a little-endian consumer decoding the
big-endian payload reconstructs the value `2^56`, not `1`.  The payload is
therefore not byte-for-byte stable across platform byte orders. -/
theorem numpy_payload_byteorder_counterexample :
    lookup? (NUMPY_CODEC_to_dict .little ⟨.int64, [1], [1]⟩) "bytes" ≠
      lookup? (NUMPY_CODEC_to_dict .big ⟨.int64, [1], [1]⟩) "bytes" ∧
    NUMPY_CODEC_from_dict .little (NUMPY_CODEC_to_dict .big ⟨.int64, [1], [1]⟩) =
      .ok ⟨.int64, [1], [72057594037927936]⟩ := by
  constructor
  · decide
  · rfl

/-- C3 (amended): the `bytes` payload is the row-major flat element encoding
in the PRODUCING platform's native byte order (not a pinned little-endian),
and `from_dict` reinterprets under the CONSUMING platform's native order, so
encode→decode round-trips exactly when the two platforms share a byte
order. -/
theorem numpy_native_order_payload (o : ByteOrder) (a : NDArray) (h : a.WF) :
    lookup? (NUMPY_CODEC_to_dict o a) "bytes" =
      some (.pbytes (elemsToBytes o a.dtype.itemsize a.data)) ∧
    NUMPY_CODEC_from_dict o (NUMPY_CODEC_to_dict o a) = .ok a := by
  refine ⟨?_, numpy_from_to o a h⟩
  simp [NUMPY_CODEC_to_dict, lookup?]

/-- C3 amended-claim witness: the round trip at a concrete array on a
big-endian platform. -/
theorem numpy_native_order_payload_witness :
    lookup? (NUMPY_CODEC_to_dict .big ⟨.int64, [1], [1]⟩) "bytes" =
      some (.pbytes (elemsToBytes .big 8 [1])) ∧
    NUMPY_CODEC_from_dict .big (NUMPY_CODEC_to_dict .big ⟨.int64, [1], [1]⟩) =
      .ok ⟨.int64, [1], [1]⟩ :=
  numpy_native_order_payload .big ⟨.int64, [1], [1]⟩ ⟨rfl, by decide⟩

/-- C8 counterexample: decoding an array-shaped dict with no `bytes` key
fails with `KeyError 'bytes'` — the Python dict lookup — and `KeyError` is
not the `MalformedCanonicalDict` error the claim names (no such error type
exists in the code). -/
theorem numpy_missing_bytes_counterexample :
    NUMPY_CODEC_from_dict .little
        [("dtype", .pstr "int64"), ("shape", .pintList [2, 3])] =
      .error (.keyError "bytes") ∧
    PyErr.keyError "bytes" ≠ PyErr.malformedCanonicalDict := by
  exact ⟨rfl, by decide⟩

/-- C8 (amended): `NUMPY_CODEC.from_dict` on a dict with no `bytes` key
fails with `KeyError 'bytes'` from the dict lookup, before any byte
reinterpretation is attempted, and on a payload whose length is not a whole
number of elements it fails with `ValueError` from the buffer
reinterpretation's size check; neither failure is a low-level memory fault,
but neither is a dedicated `MalformedCanonicalDict` error, which the code
does not define. -/
theorem numpy_from_dict_malformed :
    (∀ (o : ByteOrder) (d : Dict), hasKey d "bytes" = false →
      NUMPY_CODEC_from_dict o d = .error (.keyError "bytes")) ∧
    (∀ (o : ByteOrder) (d : Dict) (bs : List (Fin 256)),
      lookup? d "bytes" = some (.pbytes bs) →
      lookup? d "dtype" = some (.pstr "int64") →
      bs.length % 8 ≠ 0 →
      NUMPY_CODEC_from_dict o d =
        .error (.valueError "buffer size must be a multiple of element size")) := by
  constructor
  · intro o d h
    have hl : lookup? d "bytes" = none := by
      unfold hasKey at h
      cases hx : lookup? d "bytes" with
      | none => rfl
      | some v => rw [hx] at h; simp at h
    simp only [NUMPY_CODEC_from_dict, getItem, hl]
  · intro o d bs hb hd hmod
    have hb' : getItem d "bytes" = .ok (.pbytes bs) := by
      simp only [getItem, hb]
    have hd' : getItem d "dtype" = .ok (.pstr "int64") := by
      simp only [getItem, hd]
    have hp : np_parse_dtype (.pstr "int64") = .ok .int64 := rfl
    simp only [NUMPY_CODEC_from_dict, hb', hd', hp]
    rw [if_neg]
    exact hmod

/-- C8 amended-claim witness: both failure modes at concrete dicts: the
2×3 int64 dict with no `bytes` key, and an int64 dict whose payload is 3
bytes long. -/
theorem numpy_from_dict_malformed_witness :
    NUMPY_CODEC_from_dict .little
        [("dtype", .pstr "int64"), ("shape", .pintList [2, 3])] =
      .error (.keyError "bytes") ∧
    NUMPY_CODEC_from_dict .little
        [("dtype", .pstr "int64"), ("shape", .pintList [3]),
         ("bytes", .pbytes [0, 1, 2])] =
      .error (.valueError "buffer size must be a multiple of element size") :=
  ⟨numpy_from_dict_malformed.1 .little
      [("dtype", .pstr "int64"), ("shape", .pintList [2, 3])] rfl,
   numpy_from_dict_malformed.2 .little
      [("dtype", .pstr "int64"), ("shape", .pintList [3]),
       ("bytes", .pbytes [0, 1, 2])] [0, 1, 2] rfl rfl (by decide)⟩

/-! ## Class resolution and the settings codec

`default_from_dict` and `inherited_is_my_dict` call
`gufe.tokenization.get_class(module, qualname)`, which is not part of the
source fragment.  Modelled from the spec: the Class Resolver is an injected
external collaborator exposing `resolve(module_name, qualified_name) ->
Type`, failing with `UnknownClass` when the name cannot be located; concrete
types are identifiers (`Nat`) and each type reports its method resolution
order (`mro`, the type itself followed by its ancestors).  The embedded
functions therefore take the resolver and the `mro` table as parameters. -/

/-- Modelled from the spec: `resolve(module, qualname) -> Type`; `none` is
the `UnknownClass` failure.  Arguments are the dict values handed over by
the caller (strings, in every dict the codecs produce). -/
abbrev Resolver : Type := PyVal → PyVal → Option Nat

/-- `cls(**dct)`: the resolved class constructed with the remaining keys as
named fields. -/
structure PyObj where
  cls : Nat
  kwargs : Dict
  deriving DecidableEq, Repr

/-- `default_from_dict(dct)`: copy the dict, pop `__module__` and
`__class__`, delete `:is_custom:`, resolve the class and construct it from
the remaining keys as named fields. -/
def default_from_dict (resolve : Resolver) (dct : Dict) : Except PyErr PyObj :=
  match popKey dct "__module__" with
  | .error e => .error e
  | .ok (module, d1) =>
    match popKey d1 "__class__" with
    | .error e => .error e
    | .ok (qualname, d2) =>
      match delKey d2 ":is_custom:" with
      | .error e => .error e
      | .ok d3 =>
        match resolve module qualname with
        | none => .error .importError
        | some cls => .ok ⟨cls, d3⟩

/-- `inherited_is_my_dict(dct, cls)`: `False` when `__module__` or
`__class__` is absent; otherwise pop both from a copy, resolve the stored
class and test `cls in stored.mro()`. -/
def inherited_is_my_dict (resolve : Resolver) (mro : Nat → List Nat)
    (dct : Dict) (cls : Nat) : Except PyErr Bool :=
  if hasKey dct "__module__" && hasKey dct "__class__" then
    match popKey dct "__module__" with
    | .error e => .error e
    | .ok (module, d1) =>
      match popKey d1 "__class__" with
      | .error e => .error e
      | .ok (classname, _) =>
        match resolve module classname with
        | none => .error .importError
        | some stored => .ok (decide (cls ∈ mro stored))
  else .ok false

/-- `is_openff_unit_dict(dct)`: all of `pint_unit_registry`, `unit_name`,
`:is_custom:` present, and the registry value equal to "openff_units". -/
def is_openff_unit_dict (dct : Dict) : Except PyErr Bool :=
  if hasKey dct "pint_unit_registry" && hasKey dct "unit_name" &&
      hasKey dct ":is_custom:" then
    match getItem dct "pint_unit_registry" with
    | .error e => .error e
    | .ok v => .ok (decide (v = .pstr "openff_units"))
  else .ok false

/-- `is_openff_quantity_dict(dct)`: all of `pint_unit_registry`,
`magnitude`, `:is_custom:`, `unit` present, and the registry value equal to
"openff_units". -/
def is_openff_quantity_dict (dct : Dict) : Except PyErr Bool :=
  if hasKey dct "pint_unit_registry" && hasKey dct "magnitude" &&
      hasKey dct ":is_custom:" && hasKey dct "unit" then
    match getItem dct "pint_unit_registry" with
    | .error e => .error e
    | .ok v => .ok (decide (v = .pstr "openff_units"))
  else .ok false

/-- Drop the three bookkeeping keys `__module__`, `__class__`,
`:is_custom:`. -/
def dropBookkeeping (d : Dict) : Dict :=
  eraseKey (eraseKey (eraseKey d "__module__") "__class__") ":is_custom:"

/-- C4: on a dict carrying `__module__`, `__class__` and the `:is_custom:`
marker whose class resolves, `default_from_dict` constructs the resolved
type from exactly the remaining keys: the three bookkeeping keys are
removed and every other key survives unaltered. -/
theorem default_from_dict_fields (resolve : Resolver) (d : Dict)
    (m q : PyVal) (t : Nat)
    (hm : lookup? d "__module__" = some m)
    (hq : lookup? d "__class__" = some q)
    (hc : hasKey d ":is_custom:" = true)
    (hr : resolve m q = some t) :
    default_from_dict resolve d = .ok ⟨t, dropBookkeeping d⟩ ∧
    (∀ k, k ≠ "__module__" → k ≠ "__class__" → k ≠ ":is_custom:" →
      lookup? (dropBookkeeping d) k = lookup? d k) ∧
    lookup? (dropBookkeeping d) "__module__" = none ∧
    lookup? (dropBookkeeping d) "__class__" = none ∧
    lookup? (dropBookkeeping d) ":is_custom:" = none := by
  have hq1 : lookup? (eraseKey d "__module__") "__class__" = some q := by
    rw [lookup?_eraseKey_ne d "__module__" "__class__" (by decide), hq]
  have hc1 : lookup? (eraseKey (eraseKey d "__module__") "__class__") ":is_custom:" =
      lookup? d ":is_custom:" := by
    rw [lookup?_eraseKey_ne _ "__class__" ":is_custom:" (by decide),
        lookup?_eraseKey_ne _ "__module__" ":is_custom:" (by decide)]
  refine ⟨?_, ?_, ?_, ?_, ?_⟩
  · unfold default_from_dict popKey delKey
    unfold hasKey at hc
    cases hx : lookup? d ":is_custom:" with
    | none =>
      rw [hx] at hc
      simp at hc
    | some v =>
      have hc2 : lookup? (eraseKey (eraseKey d "__module__") "__class__")
          ":is_custom:" = some v := by rw [hc1, hx]
      simp only [hm, hq1, hc2, hr]
      rfl
  · intro k h1 h2 h3
    unfold dropBookkeeping
    rw [lookup?_eraseKey_ne _ ":is_custom:" k h3,
        lookup?_eraseKey_ne _ "__class__" k h2,
        lookup?_eraseKey_ne _ "__module__" k h1]
  · unfold dropBookkeeping
    rw [lookup?_eraseKey_ne _ ":is_custom:" "__module__" (by decide),
        lookup?_eraseKey_ne _ "__class__" "__module__" (by decide),
        lookup?_eraseKey_self]
  · unfold dropBookkeeping
    rw [lookup?_eraseKey_ne _ ":is_custom:" "__class__" (by decide),
        lookup?_eraseKey_self]
  · unfold dropBookkeeping
    rw [lookup?_eraseKey_self]

/-- C4 witness: a concrete settings-shaped dict with one payload field
decodes to the resolved class applied to exactly that field. -/
theorem default_from_dict_fields_witness :
    default_from_dict
        (fun m q => if m = .pstr "mod" ∧ q = .pstr "Cls" then some 7 else none)
        [("__module__", .pstr "mod"), ("__class__", .pstr "Cls"),
         (":is_custom:", .pbool true), ("field_a", .pint 3)] =
      .ok ⟨7, [("field_a", .pint 3)]⟩ ∧
    lookup? (dropBookkeeping
        [("__module__", .pstr "mod"), ("__class__", .pstr "Cls"),
         (":is_custom:", .pbool true), ("field_a", .pint 3)]) "field_a" =
      some (.pint 3) := by
  have h := default_from_dict_fields
    (fun m q => if m = .pstr "mod" ∧ q = .pstr "Cls" then some 7 else none)
    [("__module__", .pstr "mod"), ("__class__", .pstr "Cls"),
     (":is_custom:", .pbool true), ("field_a", .pint 3)]
    (.pstr "mod") (.pstr "Cls") 7 rfl rfl rfl (by simp)
  refine ⟨?_, ?_⟩
  · have h1 := h.1
    rw [h1]
    rfl
  · have h2 := h.2.1 "field_a" (by decide) (by decide) (by decide)
    rw [h2]
    rfl

/-- C5: a dict whose `__module__`/`__class__` resolve to a strict subtype
of the base class `cls` is accepted by `inherited_is_my_dict` (the
settings codec's `is_my_dict` with `cls=SettingsBaseModel`), not
rejected. -/
theorem inherited_is_my_dict_subtype (resolve : Resolver) (mro : Nat → List Nat)
    (d : Dict) (m q : PyVal) (t base : Nat)
    (hm : lookup? d "__module__" = some m)
    (hq : lookup? d "__class__" = some q)
    (hr : resolve m q = some t)
    (hstrict : t ≠ base)
    (hsub : base ∈ mro t) :
    inherited_is_my_dict resolve mro d base = .ok true := by
  have hkm : hasKey d "__module__" = true := by
    unfold hasKey
    rw [hm]
    rfl
  have hkq : hasKey d "__class__" = true := by
    unfold hasKey
    rw [hq]
    rfl
  have hq1 : lookup? (eraseKey d "__module__") "__class__" = some q := by
    rw [lookup?_eraseKey_ne d "__module__" "__class__" (by decide), hq]
  unfold inherited_is_my_dict popKey
  simp only [hkm, hkq, Bool.and_self, if_true, hm, hq1, hr]
  simp [hsub]

/-- C5 witness: a dict naming a strict subtype (class 5, whose mro is
`[5, 4, 0]`) of the base class 4 is accepted. -/
theorem inherited_is_my_dict_subtype_witness :
    inherited_is_my_dict
        (fun m q => if m = .pstr "gufe.settings.models" ∧ q = .pstr "Settings"
          then some 5 else none)
        (fun t => if t = 5 then [5, 4, 0] else [t, 0])
        [("__module__", .pstr "gufe.settings.models"),
         ("__class__", .pstr "Settings"), (":is_custom:", .pbool true)] 4 =
      .ok true :=
  inherited_is_my_dict_subtype
    (fun m q => if m = .pstr "gufe.settings.models" ∧ q = .pstr "Settings"
      then some 5 else none)
    (fun t => if t = 5 then [5, 4, 0] else [t, 0])
    [("__module__", .pstr "gufe.settings.models"),
     ("__class__", .pstr "Settings"), (":is_custom:", .pbool true)]
    (.pstr "gufe.settings.models") (.pstr "Settings") 5 4
    rfl rfl (by simp) (by decide) (by decide)

/-! ## The openff unit and quantity codecs

`OPENFF_QUANTITY_CODEC` and `OPENFF_UNIT_CODEC` have `cls=None` and match
via the predicates above.  A pint quantity decomposes into a magnitude
(`obj.m`) and a unit object (`obj.u`); multiplying a magnitude by a unit
object under the same registry gives back the quantity with that magnitude
and unit, which is what `from_dict` does.  A unit object is modelled by its
unit-expression token (`PyVal.punit`). -/

/-- An openff/pint quantity: a magnitude and a unit. -/
structure OpenFFQuantity where
  m : PyVal
  u : String
  deriving DecidableEq, Repr

/-- `OPENFF_QUANTITY_CODEC.to_dict`: `{'magnitude': obj.m, 'unit': obj.u,
":is_custom:": True, "pint_unit_registry": "openff_units"}`. -/
def OPENFF_QUANTITY_CODEC_to_dict (obj : OpenFFQuantity) : Dict :=
  [("magnitude", obj.m), ("unit", .punit obj.u),
   (":is_custom:", .pbool true), ("pint_unit_registry", .pstr "openff_units")]

/-- `magnitude * unit` in pint: a unit operand rebuilds the quantity with
that magnitude and unit; a non-unit right operand is a type error. -/
def pyMulUnit (m u : PyVal) : Except PyErr OpenFFQuantity :=
  match u with
  | .punit nm => .ok ⟨m, nm⟩
  | _ => .error (.typeError "unsupported operand")

/-- `OPENFF_QUANTITY_CODEC.from_dict`: `dct['magnitude'] * dct['unit']`. -/
def OPENFF_QUANTITY_CODEC_from_dict (dct : Dict) : Except PyErr OpenFFQuantity :=
  match getItem dct "magnitude" with
  | .error e => .error e
  | .ok m =>
    match getItem dct "unit" with
    | .error e => .error e
    | .ok u => pyMulUnit m u

/-- `openff_unit_to_dict(unit)`. -/
def openff_unit_to_dict (u : String) : Dict :=
  [(":is_custom:", .pbool true), ("pint_unit_registry", .pstr "openff_units"),
   ("unit_name", .pstr u)]

/-- C6: encoding a quantity puts its magnitude under `magnitude`, its unit
(resolvable back to the same unit) under `unit`, sets `:is_custom:` to true
and `pint_unit_registry` to "openff_units"; the codec's own
`is_openff_quantity_dict` accepts that dict; and `from_dict` rebuilds an
equal quantity. -/
theorem openff_quantity_roundtrip (q : OpenFFQuantity) :
    lookup? (OPENFF_QUANTITY_CODEC_to_dict q) "magnitude" = some q.m ∧
    lookup? (OPENFF_QUANTITY_CODEC_to_dict q) "unit" = some (.punit q.u) ∧
    lookup? (OPENFF_QUANTITY_CODEC_to_dict q) ":is_custom:" = some (.pbool true) ∧
    lookup? (OPENFF_QUANTITY_CODEC_to_dict q) "pint_unit_registry" =
      some (.pstr "openff_units") ∧
    is_openff_quantity_dict (OPENFF_QUANTITY_CODEC_to_dict q) = .ok true ∧
    OPENFF_QUANTITY_CODEC_from_dict (OPENFF_QUANTITY_CODEC_to_dict q) = .ok q := by
  refine ⟨?_, ?_, ?_, ?_, ?_, ?_⟩
  · simp [OPENFF_QUANTITY_CODEC_to_dict, lookup?]
  · simp [OPENFF_QUANTITY_CODEC_to_dict, lookup?]
  · simp [OPENFF_QUANTITY_CODEC_to_dict, lookup?]
  · simp [OPENFF_QUANTITY_CODEC_to_dict, lookup?]
  · simp [is_openff_quantity_dict, OPENFF_QUANTITY_CODEC_to_dict, hasKey,
      lookup?, getItem]
  · simp [OPENFF_QUANTITY_CODEC_from_dict, OPENFF_QUANTITY_CODEC_to_dict,
      getItem, lookup?, pyMulUnit]

/-- C6 witness: magnitude 9.8 is outside the integer fragment, so the
concrete instance uses magnitude 98 with unit "meter / second ** 2"; the
dict carries the four keys and decodes to an equal quantity. -/
theorem openff_quantity_roundtrip_witness :
    is_openff_quantity_dict
        (OPENFF_QUANTITY_CODEC_to_dict ⟨.pint 98, "meter / second ** 2"⟩) =
      .ok true ∧
    OPENFF_QUANTITY_CODEC_from_dict
        (OPENFF_QUANTITY_CODEC_to_dict ⟨.pint 98, "meter / second ** 2"⟩) =
      .ok ⟨.pint 98, "meter / second ** 2"⟩ :=
  ⟨(openff_quantity_roundtrip ⟨.pint 98, "meter / second ** 2"⟩).2.2.2.2.1,
   (openff_quantity_roundtrip ⟨.pint 98, "meter / second ** 2"⟩).2.2.2.2.2⟩

/-- C10: with `__module__` or `__class__` absent, `inherited_is_my_dict`
returns `False` without raising, with the same result under every resolver
(so the resolver is never consulted); and each openff predicate returns
`False` without raising on a dict missing one of its required keys. -/
theorem dict_predicates_missing_keys :
    (∀ (resolve : Resolver) (mro : Nat → List Nat) (d : Dict) (cls : Nat),
      hasKey d "__module__" = false ∨ hasKey d "__class__" = false →
      inherited_is_my_dict resolve mro d cls = .ok false) ∧
    (∀ d : Dict,
      hasKey d "pint_unit_registry" = false ∨ hasKey d "unit_name" = false ∨
        hasKey d ":is_custom:" = false →
      is_openff_unit_dict d = .ok false) ∧
    (∀ d : Dict,
      hasKey d "pint_unit_registry" = false ∨ hasKey d "magnitude" = false ∨
        hasKey d ":is_custom:" = false ∨ hasKey d "unit" = false →
      is_openff_quantity_dict d = .ok false) := by
  refine ⟨?_, ?_, ?_⟩
  · intro resolve mro d cls h
    unfold inherited_is_my_dict
    rw [if_neg]
    intro hcond
    rcases h with h | h <;> rw [h] at hcond <;> simp at hcond
  · intro d h
    unfold is_openff_unit_dict
    rw [if_neg]
    intro hcond
    rcases h with h | h | h <;> rw [h] at hcond <;> simp at hcond
  · intro d h
    unfold is_openff_quantity_dict
    rw [if_neg]
    intro hcond
    rcases h with h | h | h | h <;> rw [h] at hcond <;> simp at hcond

/-- C10 witness: on the empty dict, `inherited_is_my_dict` answers `False`
under two different resolvers (one resolving everything, one nothing), and
both openff predicates answer `False`;
a dict missing only `unit_name` is likewise rejected without raising. -/
theorem dict_predicates_missing_keys_witness :
    inherited_is_my_dict (fun _ _ => some 3) (fun t => [t]) [] 0 = .ok false ∧
    inherited_is_my_dict (fun _ _ => none) (fun t => [t]) [] 0 = .ok false ∧
    is_openff_unit_dict
        [("pint_unit_registry", .pstr "openff_units"), (":is_custom:", .pbool true)] =
      .ok false ∧
    is_openff_quantity_dict [] = .ok false :=
  ⟨dict_predicates_missing_keys.1 (fun _ _ => some 3) (fun t => [t]) [] 0 (Or.inl rfl),
   dict_predicates_missing_keys.1 (fun _ _ => none) (fun t => [t]) [] 0 (Or.inl rfl),
   dict_predicates_missing_keys.2.1
     [("pint_unit_registry", .pstr "openff_units"), (":is_custom:", .pbool true)]
     (Or.inr (Or.inl rfl)),
   dict_predicates_missing_keys.2.2 [] (Or.inl rfl)⟩

/-! ## Dict-match dispatch (claim C7)

The registry routes a decoded dict to the unique codec whose dict-match
accepts it.  `PATH_CODEC`, `BYTES_CODEC` and `NUMPY_CODEC` pass no
`is_my_dict`, so they use the `JSONCodec` default match, and the serializer
stamps their outputs with bookkeeping keys; `gufe/custom_json.py` is not
part of the source fragment, so both are modelled from the spec below. -/

/-- `PATH_CODEC.to_dict`: `{'path': str(p)}`. -/
def PATH_CODEC_to_dict (p : String) : Dict :=
  [("path", .pstr p)]

/-- Python `==` between an optional dict value and an expected value
(absent compares unequal). -/
def pyValEq : Option PyVal → PyVal → Bool
  | some v, w => decide (v = w)
  | none, _ => false

/-- Modelled from the spec: the serializer wraps a class-identified codec's
`to_dict` output with `__class__`, `__module__` and `:is_custom:`
bookkeeping keys (spec §3: "Canonical dicts produced for class-identified
types instead carry `__module__` and `__class__` keys"); dict update
semantics, the bookkeeping values winning on lookup. -/
def wrap_class_dict (module qualname : String) (d : Dict) : Dict :=
  [("__class__", .pstr qualname), ("__module__", .pstr module),
   (":is_custom:", .pbool true)] ++ d

/-- Modelled from the spec: the default dict-match of a class-identified
codec (`gufe/custom_json.py` is not under the source fragment): the dict
carries `__class__`, `__module__` and `:is_custom:`, and its
`__class__`/`__module__` values equal the codec's class qualname and
module. -/
def class_identity_is_my_dict (module qualname : String) (dct : Dict) : Bool :=
  (hasKey dct "__class__" && hasKey dct "__module__" &&
    hasKey dct ":is_custom:") &&
  pyValEq (lookup? dct "__class__") (.pstr qualname) &&
  pyValEq (lookup? dct "__module__") (.pstr module)

/-- The dict-match results of the registered codecs on one dict: the
class-identity matches of the path, bytes and array codecs, the settings
codec's `inherited_is_my_dict` (with `cls` the settings base class), and
the two openff predicates. -/
def codecMatches (resolve : Resolver) (mro : Nat → List Nat) (base : Nat)
    (d : Dict) : List (Except PyErr Bool) :=
  [.ok (class_identity_is_my_dict "pathlib" "Path" d),
   .ok (class_identity_is_my_dict "builtins" "bytes" d),
   .ok (class_identity_is_my_dict "numpy" "ndarray" d),
   inherited_is_my_dict resolve mro d base,
   is_openff_quantity_dict d,
   is_openff_unit_dict d]

/-- Did a dict-match answer `True` (as opposed to `False` or raising)? -/
def isOkTrue : Except PyErr Bool → Bool
  | .ok true => true
  | _ => false

/-- How many dict-matches answered `True`. -/
def countTrue (l : List (Except PyErr Bool)) : Nat :=
  (l.filter isOkTrue).length

/-- C7 counterexample: a dict carrying both the unit codec's keys
(`unit_name`) and the quantity codec's keys (`magnitude`, `unit`) under the
"openff_units" registry discriminator is accepted by BOTH openff dict
predicates, so two of the registered codecs' matches return true on one
decode input. -/
theorem codec_dict_match_ambiguous_counterexample :
    is_openff_unit_dict
        [("pint_unit_registry", .pstr "openff_units"),
         ("unit_name", .pstr "kelvin"), ("magnitude", .pint 1),
         ("unit", .punit "kelvin"), (":is_custom:", .pbool true)] = .ok true ∧
    is_openff_quantity_dict
        [("pint_unit_registry", .pstr "openff_units"),
         ("unit_name", .pstr "kelvin"), ("magnitude", .pint 1),
         ("unit", .punit "kelvin"), (":is_custom:", .pbool true)] = .ok true ∧
    countTrue (codecMatches (fun _ _ => none) (fun _ => []) 0
        [("pint_unit_registry", .pstr "openff_units"),
         ("unit_name", .pstr "kelvin"), ("magnitude", .pint 1),
         ("unit", .punit "kelvin"), (":is_custom:", .pbool true)]) = 2 :=
  ⟨rfl, rfl, rfl⟩

theorem decide_pstr_eq (q Q : String) :
    (decide ((PyVal.pstr q : PyVal) = .pstr Q)) = decide (q = Q) := by
  by_cases h : q = Q
  · subst h
    simp
  · rw [decide_eq_false h, decide_eq_false (fun hh => h (PyVal.pstr.inj hh))]

theorem class_identity_wrap (M Q m q : String) (d : Dict) :
    class_identity_is_my_dict M Q (wrap_class_dict m q d) =
      (decide (q = Q) && decide (m = M)) := by
  unfold class_identity_is_my_dict
  have h1 : lookup? (wrap_class_dict m q d) "__class__" = some (.pstr q) := rfl
  have h2 : lookup? (wrap_class_dict m q d) "__module__" = some (.pstr m) := rfl
  have h3 : hasKey (wrap_class_dict m q d) "__class__" = true := rfl
  have h4 : hasKey (wrap_class_dict m q d) "__module__" = true := rfl
  have h5 : hasKey (wrap_class_dict m q d) ":is_custom:" = true := rfl
  rw [h1, h2, h3, h4, h5]
  simp only [pyValEq, Bool.and_self, Bool.true_and]
  rw [decide_pstr_eq, decide_pstr_eq]

theorem inherited_wrap (resolve : Resolver) (mro : Nat → List Nat)
    (m q : String) (d : Dict) (base t : Nat)
    (hr : resolve (.pstr m) (.pstr q) = some t) :
    inherited_is_my_dict resolve mro (wrap_class_dict m q d) base =
      .ok (decide (base ∈ mro t)) := by
  have step : inherited_is_my_dict resolve mro (wrap_class_dict m q d) base =
      (match resolve (.pstr m) (.pstr q) with
       | none => Except.error PyErr.importError
       | some stored => Except.ok (decide (base ∈ mro stored))) := rfl
  rw [step, hr]

theorem class_identity_wrap_other_false (resolve : Resolver) (mro : Nat → List Nat)
    (base cT t : Nat) (M Q m q : String) (fields : Dict)
    (hC : resolve (.pstr M) (.pstr Q) = some cT) (hC' : base ∉ mro cT)
    (hS : resolve (.pstr m) (.pstr q) = some t) (hS' : base ∈ mro t) :
    class_identity_is_my_dict M Q (wrap_class_dict m q fields) = false := by
  rw [class_identity_wrap]
  by_cases h1 : q = Q
  · by_cases h2 : m = M
    · exfalso
      subst h1
      subst h2
      rw [hC] at hS
      injection hS with he
      refine hC' ?_
      rw [he]
      exact hS'
    · rw [decide_eq_false h2, Bool.and_false]
  · rw [decide_eq_false h1, Bool.false_and]

/-- C7 (amended): on arbitrary dicts the invariant fails (see the
counterexample: the two openff predicates overlap), but on every dict one
of the registered codecs actually produces — the wrapped path, bytes and
array dicts, a wrapped settings dict whose class resolves to a subtype of
the settings base and whose field names avoid the bookkeeping and
discriminator keys, a quantity dict and a unit dict — exactly one codec's
dict-match returns true, provided the path, bytes and array classes do not
themselves resolve to settings subtypes. -/
theorem codec_dict_match_exclusive (resolve : Resolver) (mro : Nat → List Nat)
    (base pathT bytesT ndT t : Nat) (m q p : String) (b : List (Fin 256))
    (o : ByteOrder) (a : NDArray) (fields : Dict) (mv : PyVal) (u : String)
    (hP : resolve (.pstr "pathlib") (.pstr "Path") = some pathT)
    (hP' : base ∉ mro pathT)
    (hB : resolve (.pstr "builtins") (.pstr "bytes") = some bytesT)
    (hB' : base ∉ mro bytesT)
    (hN : resolve (.pstr "numpy") (.pstr "ndarray") = some ndT)
    (hN' : base ∉ mro ndT)
    (hS : resolve (.pstr m) (.pstr q) = some t)
    (hS' : base ∈ mro t)
    (hf : ∀ k ∈ ["__class__", "__module__", ":is_custom:", "pint_unit_registry"],
      hasKey fields k = false) :
    countTrue (codecMatches resolve mro base
      (wrap_class_dict "pathlib" "Path" (PATH_CODEC_to_dict p))) = 1 ∧
    countTrue (codecMatches resolve mro base
      (wrap_class_dict "builtins" "bytes" (BYTES_CODEC_to_dict b))) = 1 ∧
    countTrue (codecMatches resolve mro base
      (wrap_class_dict "numpy" "ndarray" (NUMPY_CODEC_to_dict o a))) = 1 ∧
    countTrue (codecMatches resolve mro base (wrap_class_dict m q fields)) = 1 ∧
    countTrue (codecMatches resolve mro base
      (OPENFF_QUANTITY_CODEC_to_dict ⟨mv, u⟩)) = 1 ∧
    countTrue (codecMatches resolve mro base (openff_unit_to_dict u)) = 1 := by
  refine ⟨?_, ?_, ?_, ?_, ?_, ?_⟩
  · have h4 := inherited_wrap resolve mro "pathlib" "Path"
      (PATH_CODEC_to_dict p) base pathT hP
    rw [decide_eq_false hP'] at h4
    unfold codecMatches
    rw [h4]
    rfl
  · have h4 := inherited_wrap resolve mro "builtins" "bytes"
      (BYTES_CODEC_to_dict b) base bytesT hB
    rw [decide_eq_false hB'] at h4
    unfold codecMatches
    rw [h4]
    rfl
  · have h4 := inherited_wrap resolve mro "numpy" "ndarray"
      (NUMPY_CODEC_to_dict o a) base ndT hN
    rw [decide_eq_false hN'] at h4
    unfold codecMatches
    rw [h4]
    rfl
  · have h1 := class_identity_wrap_other_false resolve mro base pathT t
      "pathlib" "Path" m q fields hP hP' hS hS'
    have h2 := class_identity_wrap_other_false resolve mro base bytesT t
      "builtins" "bytes" m q fields hB hB' hS hS'
    have h3 := class_identity_wrap_other_false resolve mro base ndT t
      "numpy" "ndarray" m q fields hN hN' hS hS'
    have h4 := inherited_wrap resolve mro m q fields base t hS
    rw [decide_eq_true hS'] at h4
    have hreg : hasKey (wrap_class_dict m q fields) "pint_unit_registry" = false := by
      have hstep : hasKey (wrap_class_dict m q fields) "pint_unit_registry" =
          hasKey fields "pint_unit_registry" := rfl
      rw [hstep]
      exact hf "pint_unit_registry" (by simp)
    have h5 : is_openff_quantity_dict (wrap_class_dict m q fields) = .ok false := by
      unfold is_openff_quantity_dict
      rw [hreg]
      simp
    have h6 : is_openff_unit_dict (wrap_class_dict m q fields) = .ok false := by
      unfold is_openff_unit_dict
      rw [hreg]
      simp
    unfold codecMatches
    rw [h1, h2, h3, h4, h5, h6]
    rfl
  · unfold codecMatches
    rfl
  · unfold codecMatches
    rfl

/-- A concrete resolver for the C7 witness: classes 1, 2, 3 are
`pathlib.Path`, `builtins.bytes`, `numpy.ndarray`; class 5 is a settings
model subclass of the settings base class 4. -/
def demoResolve : Resolver := fun v₁ v₂ =>
  if v₁ = PyVal.pstr "pathlib" ∧ v₂ = PyVal.pstr "Path" then some 1
  else if v₁ = PyVal.pstr "builtins" ∧ v₂ = PyVal.pstr "bytes" then some 2
  else if v₁ = PyVal.pstr "numpy" ∧ v₂ = PyVal.pstr "ndarray" then some 3
  else if v₁ = PyVal.pstr "gufe.settings.models" ∧ v₂ = PyVal.pstr "Settings"
    then some 5
  else none

/-- Method resolution orders for the C7 witness: only class 5 descends from
the settings base class 4. -/
def demoMro : Nat → List Nat := fun t => if t = 5 then [5, 4, 0] else [t, 0]

/-- C7 amended-claim witness: under the concrete resolver, each of the six
produced dict shapes is matched by exactly one registered codec. -/
theorem codec_dict_match_exclusive_witness :
    countTrue (codecMatches demoResolve demoMro 4
      (wrap_class_dict "pathlib" "Path" (PATH_CODEC_to_dict "/tmp/data.txt"))) = 1 ∧
    countTrue (codecMatches demoResolve demoMro 4
      (wrap_class_dict "builtins" "bytes" (BYTES_CODEC_to_dict [0, 255, 65]))) = 1 ∧
    countTrue (codecMatches demoResolve demoMro 4
      (wrap_class_dict "numpy" "ndarray"
        (NUMPY_CODEC_to_dict .little ⟨.int64, [1], [1]⟩))) = 1 ∧
    countTrue (codecMatches demoResolve demoMro 4
      (wrap_class_dict "gufe.settings.models" "Settings"
        [("max_iter", .pint 100)])) = 1 ∧
    countTrue (codecMatches demoResolve demoMro 4
      (OPENFF_QUANTITY_CODEC_to_dict ⟨.pint 98, "meter / second ** 2"⟩)) = 1 ∧
    countTrue (codecMatches demoResolve demoMro 4
      (openff_unit_to_dict "meter / second ** 2")) = 1 :=
  codec_dict_match_exclusive demoResolve demoMro 4 1 2 3 5
    "gufe.settings.models" "Settings" "/tmp/data.txt" [0, 255, 65] .little
    ⟨.int64, [1], [1]⟩ [("max_iter", .pint 100)] (.pint 98)
    "meter / second ** 2"
    rfl (by decide) rfl (by decide) rfl (by decide) rfl (by decide)
    (by decide)

/-! ## Mutation model for claim C9

`default_from_dict` begins with `dct = dict(dct)` and `inherited_is_my_dict`
with `dct = dict(dct)` after its guard; every subsequent `pop`/`del`
mutates only that fresh copy.  To state that the CALLER's dict object is
left unchanged, the two functions are replayed over an explicit heap of
dict objects: references are indices, `dict(d)` allocates a fresh
reference, and `pop`/`del` write back through the reference they are called
on, exactly following the source's statement order. -/

/-- A heap of Python dict objects; a reference is an index. -/
abbrev Heap : Type := List Dict

/-- Dereference (unallocated references read as empty). -/
def heapRead (h : Heap) (r : Nat) : Dict :=
  (h[r]?).getD []

/-- Overwrite the object behind a reference. -/
def heapWrite (h : Heap) (r : Nat) (d : Dict) : Heap :=
  h.set r d

/-- `dict(d)`: allocate a fresh object holding `d`, returning the new heap
and the fresh reference. -/
def heapAlloc (h : Heap) (d : Dict) : Heap × Nat :=
  (h ++ [d], h.length)

/-- `default_from_dict` replayed on the heap: copy the argument dict, then
`pop('__module__')`, `pop('__class__')`, `del dct[':is_custom:']` each
read-and-write the copy, then resolve and construct. -/
def default_from_dict_st (resolve : Resolver) (h : Heap) (r : Nat) :
    Heap × Except PyErr PyObj :=
  let copy := heapAlloc h (heapRead h r)
  let h1 := copy.1
  let c := copy.2
  match lookup? (heapRead h1 c) "__module__" with
  | none => (h1, .error (.keyError "__module__"))
  | some module =>
    let h2 := heapWrite h1 c (eraseKey (heapRead h1 c) "__module__")
    match lookup? (heapRead h2 c) "__class__" with
    | none => (h2, .error (.keyError "__class__"))
    | some qualname =>
      let h3 := heapWrite h2 c (eraseKey (heapRead h2 c) "__class__")
      match lookup? (heapRead h3 c) ":is_custom:" with
      | none => (h3, .error (.keyError ":is_custom:"))
      | some _ =>
        let h4 := heapWrite h3 c (eraseKey (heapRead h3 c) ":is_custom:")
        match resolve module qualname with
        | none => (h4, .error .importError)
        | some cls => (h4, .ok ⟨cls, heapRead h4 c⟩)

/-- `inherited_is_my_dict` replayed on the heap: guard on the argument
dict's keys, then copy it and pop `__module__` and `__class__` from the
copy, then resolve and test the mro. -/
def inherited_is_my_dict_st (resolve : Resolver) (mro : Nat → List Nat)
    (h : Heap) (r : Nat) (cls : Nat) : Heap × Except PyErr Bool :=
  if hasKey (heapRead h r) "__module__" && hasKey (heapRead h r) "__class__" then
    let copy := heapAlloc h (heapRead h r)
    let h1 := copy.1
    let c := copy.2
    match lookup? (heapRead h1 c) "__module__" with
    | none => (h1, .error (.keyError "__module__"))
    | some module =>
      let h2 := heapWrite h1 c (eraseKey (heapRead h1 c) "__module__")
      match lookup? (heapRead h2 c) "__class__" with
      | none => (h2, .error (.keyError "__class__"))
      | some classname =>
        let h3 := heapWrite h2 c (eraseKey (heapRead h2 c) "__class__")
        match resolve module classname with
        | none => (h3, .error .importError)
        | some stored => (h3, .ok (decide (cls ∈ mro stored)))
  else (h, .ok false)

theorem heapRead_append_lt (h : Heap) (x : Dict) (r : Nat) (hr : r < h.length) :
    heapRead (h ++ [x]) r = heapRead h r := by
  unfold heapRead
  rw [List.getElem?_append_left hr]

theorem heapRead_set_ne (h : Heap) (c : Nat) (d : Dict) (r : Nat) (hne : c ≠ r) :
    heapRead (heapWrite h c d) r = heapRead h r := by
  unfold heapRead heapWrite
  rw [List.getElem?_set_ne hne]

/-- C9: neither `default_from_dict` nor `inherited_is_my_dict` mutates the
caller's dict: both copy it before popping or deleting keys, so reading the
argument reference after the call gives exactly the dict that was passed
in, whatever branch was taken. -/
theorem dict_args_not_mutated (resolve : Resolver) (mro : Nat → List Nat)
    (h : Heap) (r cls : Nat) (hr : r < h.length) :
    heapRead (default_from_dict_st resolve h r).1 r = heapRead h r ∧
    heapRead (inherited_is_my_dict_st resolve mro h r cls).1 r = heapRead h r := by
  have hne : h.length ≠ r := fun he => absurd hr (he ▸ Nat.lt_irrefl r)
  constructor
  · unfold default_from_dict_st heapAlloc
    dsimp only
    repeat' split
    all_goals
      simp only [heapRead_set_ne _ _ _ _ hne, heapRead_append_lt h _ r hr]
  · unfold inherited_is_my_dict_st heapAlloc
    dsimp only
    repeat' split
    all_goals
      simp only [heapRead_set_ne _ _ _ _ hne, heapRead_append_lt h _ r hr]

/-- C9 witness: on a one-object heap holding a full settings-shaped dict,
both calls leave the caller's object bit-for-bit intact. -/
theorem dict_args_not_mutated_witness :
    heapRead (default_from_dict_st (fun _ _ => some 9)
        [[("__module__", .pstr "m"), ("__class__", .pstr "C"),
          (":is_custom:", .pbool true), ("x", .pint 1)]] 0).1 0 =
      heapRead
        [[("__module__", .pstr "m"), ("__class__", .pstr "C"),
          (":is_custom:", .pbool true), ("x", .pint 1)]] 0 ∧
    heapRead (inherited_is_my_dict_st (fun _ _ => some 9) (fun t => [t])
        [[("__module__", .pstr "m"), ("__class__", .pstr "C"),
          (":is_custom:", .pbool true), ("x", .pint 1)]] 0 9).1 0 =
      heapRead
        [[("__module__", .pstr "m"), ("__class__", .pstr "C"),
          (":is_custom:", .pbool true), ("x", .pint 1)]] 0 :=
  dict_args_not_mutated (fun _ _ => some 9) (fun t => [t])
    [[("__module__", .pstr "m"), ("__class__", .pstr "C"),
      (":is_custom:", .pbool true), ("x", .pint 1)]] 0 9 (by decide)
